import Mathlib

/-!
Shallow embedding of the Degradation Challenge Game (src/Degradation_Game.py)
and proofs about it.  Python floats are modelled as rationals; `np.round(x, n)`
is modelled by rounding `x * 10^n` to the nearest integer; random draws
(`np.random.normal`) are passed as explicit parameters, matching the spec's
"for a fixed noise draw".  Streamlit's `st.session_state` is modelled as an
explicit `GameState` record threaded through the handlers.
-/

namespace DegradationGame

/-- Objective degradation time in hours (`TARGET_HOURS = 3.0`). -/
def TARGET_HOURS : ℚ := 3

/-- Batch cap per run (`MAX_ENTRIES_PER_RUN = 5`). -/
def MAX_ENTRIES_PER_RUN : ℕ := 5

/-- Half-open stepped integer range, as `np.arange(start, stop, step)` over naturals. -/
def arange (start stop step : ℕ) : List ℕ :=
  (List.range ((stop - start + step - 1) / step)).map (fun k => start + step * k)

/-- The UV-Vis wavelength grid `WAVELENGTHS = np.arange(300, 801, 2)`. -/
def WAVELENGTHS : List ℕ := arange 300 801 2

/-- The closed solvent enumeration `SOLVENTS = ["2MeTHF", "Toluene", "Chloroform"]`. -/
inductive Solvent where
  | twoMeTHF | toluene | chloroform
  deriving DecidableEq

/-- The closed acid enumeration `ACIDS = ["HCl", "TFA"]`. -/
inductive Acid where
  | hcl | tfa
  deriving DecidableEq

/-- The closed acid-concentration enumeration
`ACID_CONCENTRATION = ["50x", "100x", "300x", "600x", "900x"]`, in list order. -/
inductive AcidConc where
  | c50 | c100 | c300 | c600 | c900
  deriving DecidableEq

/-- Numeric value of an acid-concentration category: the source computes
`int(mult.replace("x", ""))`; on the five valid category strings this is the
table below. -/
def multVal : AcidConc → ℤ
  | .c50 => 50
  | .c100 => 100
  | .c300 => 300
  | .c600 => 600
  | .c900 => 900

/-- Rounding to 2 decimal places, modelling `np.round(t, 2)` on rationals
(nearest multiple of 1/100; the tie-breaking rule is irrelevant to every
claim below, none of which sits on a .005 tie). -/
def round2 (q : ℚ) : ℚ := ((round (q * 100) : ℤ) : ℚ) / 100

/-- Rounding to 3 decimal places, modelling `np.round(x, 3)` on rationals. -/
def round3 (q : ℚ) : ℚ := ((round (q * 1000) : ℤ) : ℚ) / 1000

/-- Solvent adjustment of `base_degradation_time`: the signed amount added to
`t` by the solvent if/elif chain (`2MeTHF: t -= 1.2`, `Chloroform: t -= 0.6`,
`Toluene: t += 0.4`). -/
def solventAdj : Solvent → ℚ
  | .twoMeTHF => -(12/10)
  | .chloroform => -(6/10)
  | .toluene => 4/10

/-- Acid-identity adjustment of `base_degradation_time`
(`HCl: t -= 0.8`, `TFA: t -= 0.3`). -/
def acidAdj : Acid → ℚ
  | .hcl => -(8/10)
  | .tfa => -(3/10)

/-- Acid-strength multiplier adjustment of `base_degradation_time`, mirroring
the source's if/elif chain on `mult_val` (no branch taken leaves `t` unchanged,
hence the final 0). -/
def multAdj (mult : AcidConc) : ℚ :=
  let v := multVal mult
  if v ≤ 50 then 1
  else if v = 100 then -(2/10)
  else if v = 300 then -(9/10)
  else if v = 600 then -(6/10)
  else if v = 900 then -(1/10)
  else 0

/-- The simulator `base_degradation_time(solvent, acid, mult)`: baseline 6.0
hours, three additive table lookups, one Gaussian noise draw (passed here as
the explicit parameter `noise`), floored at 0.4 and rounded to 2 decimals. -/
def base_degradation_time (solvent : Solvent) (acid : Acid) (mult : AcidConc)
    (noise : ℚ) : ℚ :=
  let t : ℚ := 6
  let t := t + solventAdj solvent
  let t := t + acidAdj acid
  let t := t + multAdj mult
  let t := max (4/10) (t + noise)
  round2 t

/-- The deterministic pre-noise part of `base_degradation_time`: baseline plus
the three table adjustments, before noise, floor and rounding. -/
def preNoise (solvent : Solvent) (acid : Acid) (mult : AcidConc) : ℚ :=
  6 + solventAdj solvent + acidAdj acid + multAdj mult

/-- The score `closeness_score(hours) = float(np.round(abs(hours - TARGET_HOURS), 3))`. -/
def closeness_score (hours : ℚ) : ℚ := round3 |hours - TARGET_HOURS|

/-- A pending entry, as built by the Add Entry button in `page_builder`. -/
structure Entry where
  entry_id : String
  solvent : Solvent
  polymer_conc : ℚ
  acid : Acid
  acid_conc : AcidConc
  spectrum_hour : ℚ
  added_at : String
  deriving DecidableEq

/-- A result row, as built by the Run Experiments handler in `page_builder`. -/
structure Result where
  session_id : String
  entry_id : String
  solvent : Solvent
  polymer_conc : ℚ
  acid : Acid
  acid_conc : AcidConc
  spectrum_hour : ℚ
  degradation_hours : ℚ
  closeness : ℚ
  run_at : String
  deriving DecidableEq

/-- One result row from one pending entry: the body of the `for e in
pending_entries` loop in `page_builder`'s run handler. -/
def mkRow (sid runAt : String) (e : Entry) (noise : ℚ) : Result :=
  let hours := base_degradation_time e.solvent e.acid e.acid_conc noise
  { session_id := sid
    entry_id := e.entry_id
    solvent := e.solvent
    polymer_conc := e.polymer_conc
    acid := e.acid
    acid_conc := e.acid_conc
    spectrum_hour := e.spectrum_hour
    degradation_hours := hours
    closeness := closeness_score hours
    run_at := runAt }

/-- The rows built by the run loop, in pending-entry order; `noise k` is the
noise draw consumed by the k-th entry of the batch. -/
def mkRows (sid runAt : String) (noise : ℕ → ℚ) : List Entry → ℕ → List Result
  | [], _ => []
  | e :: rest, k => mkRow sid runAt e (noise k) :: mkRows sid runAt noise rest (k + 1)

/-- The pages of the sidebar router. -/
inductive Page where
  | welcome | survey | instructions | builder | resultsPage | progress | endExp
  deriving DecidableEq

/-- The per-session state: the `st.session_state` keys set up by `init_state`. -/
structure GameState where
  page : Page
  session_id : String
  survey : List (String × String)
  consented : Bool
  pending_entries : List Entry
  results : List Result
  timer_started_at : Option ℚ
  timer_stopped_at : Option ℚ
  timer_running : Bool
  first_opened_builder_at : Option ℚ
  ended : Bool
  deriving DecidableEq

/-- Fresh session state as produced by `init_state` (the uuid4 session id is a
parameter). -/
def initState (sid : String) : GameState :=
  { page := .welcome
    session_id := sid
    survey := []
    consented := false
    pending_entries := []
    results := []
    timer_started_at := none
    timer_stopped_at := none
    timer_running := false
    first_opened_builder_at := none
    ended := false }

/-- The handler `start_timer_if_needed`: no-op if the timer is running,
otherwise record the current time and set running (note: `timer_stopped_at`
is not touched). -/
def start_timer_if_needed (now : ℚ) (s : GameState) : GameState :=
  if s.timer_running then s
  else { s with timer_started_at := some now, timer_running := true }

/-- The handler `stop_timer`: no-op if the timer is not running, otherwise
record the stop time and clear running. -/
def stop_timer (now : ℚ) (s : GameState) : GameState :=
  if s.timer_running then
    { s with timer_stopped_at := some now, timer_running := false }
  else s

/-- The query `elapsed_seconds()`: 0 if never started; `max 0 (now - start)`
while running; `max 0 (stop - start)` once a stop time exists; else 0.
Branch order matches the source. -/
def elapsed_seconds (s : GameState) (now : ℚ) : ℚ :=
  match s.timer_started_at with
  | none => 0
  | some start =>
    if s.timer_running then max 0 (now - start)
    else match s.timer_stopped_at with
      | none => 0
      | some stop => max 0 (stop - start)

/-- The handler `reset_for_new_attempt`: mint a new session id (a parameter
here), clear entries, results, timer fields and flags, keep survey and
consent, and return to Welcome. -/
def reset_for_new_attempt (newId : String) (s : GameState) : GameState :=
  { s with
    session_id := newId
    pending_entries := []
    results := []
    timer_started_at := none
    timer_stopped_at := none
    timer_running := false
    first_opened_builder_at := none
    ended := false
    page := .welcome }

/-- The Run Experiments click in `page_builder`: the button is enabled only
when `0 < len(pending_entries) <= MAX_ENTRIES_PER_RUN`; when it fires, one
result row per pending entry is appended to `results` in order and the
pending list is cleared. Otherwise nothing changes. -/
def runExperiments (s : GameState) (runAt : String) (noise : ℕ → ℚ) : GameState :=
  if 0 < s.pending_entries.length ∧ s.pending_entries.length ≤ MAX_ENTRIES_PER_RUN then
    { s with
      results := s.results ++ mkRows s.session_id runAt noise s.pending_entries 0
      pending_entries := [] }
  else s

/-- A timer operation, labelling the three handlers that touch the timer
fields, with its wall-clock argument. -/
inductive TOp where
  | tstart (now : ℚ)
  | tstop (now : ℚ)
  | treset (newId : String)
  deriving DecidableEq

/-- Apply one timer operation to the session state. -/
def applyTOp (s : GameState) : TOp → GameState
  | .tstart now => start_timer_if_needed now s
  | .tstop now => stop_timer now s
  | .treset newId => reset_for_new_attempt newId s

/-- Apply a sequence of timer operations, in order. -/
def runTOps (s : GameState) : List TOp → GameState
  | [] => s
  | op :: rest => runTOps (applyTOp s op) rest

/-- The TimerState invariant claimed by the spec's data model: running implies
no stop time is recorded, and a recorded stop time implies not running. -/
def TimerInv (s : GameState) : Prop :=
  (s.timer_running = true → s.timer_stopped_at = none) ∧
  (s.timer_stopped_at ≠ none → s.timer_running = false)

/-- Guard for one timer operation: `start_timer_if_needed` must not be
invoked from the Stopped state (running = false with a recorded stop time);
the other operations are always allowed. -/
def tstartSafe (s : GameState) : TOp → Bool
  | .tstart _ => s.timer_running || s.timer_stopped_at.isNone
  | _ => true

/-- A timer-op sequence is safe from `s` when each operation is allowed in
the state it is applied to. -/
def safeTOps (s : GameState) : List TOp → Bool
  | [] => true
  | op :: rest => tstartSafe s op && safeTOps (applyTOp s op) rest

/-- A user interaction, modelled as one Streamlit rerun: the widget effect of
the interaction followed by the render effect of the resulting page. `now` is
the wall clock of the rerun; `noise` the per-entry noise draws of a run. -/
inductive Event where
  | nav (p : Page) (now : ℚ)
  | surveySave (answers : List (String × String)) (consent : Bool) (now : ℚ)
  | addEntry (e : Entry) (now : ℚ)
  | clearPending (now : ℚ)
  | runClick (runAt : String) (noise : ℕ → ℚ) (now : ℚ)
  | newAttempt (newId : String) (now : ℚ)
  | rerunTick (now : ℚ)

/-- The set of sidebar pages gated behind consent (`requires_consent` in
`sidebar`): every page except Welcome and Survey. -/
def requiresConsent : Page → Bool
  | .welcome => false
  | .survey => false
  | _ => true

/-- The state mutation a page performs when rendered: `page_builder` returns
early without consent and otherwise calls `start_timer_if_needed`; `page_end`
calls `stop_timer` once, guarded by the `ended` flag; other pages mutate
nothing relevant. -/
def renderEffect (now : ℚ) (s : GameState) : GameState :=
  match s.page with
  | .builder => if s.consented then start_timer_if_needed now s else s
  | .endExp => if s.ended then s else { stop_timer now s with ended := true }
  | _ => s

/-- Apply one interaction: widget effect, then the render effect of the page
the session lands on.  Sidebar navigation to a consent-gated page is disabled
before consent; Survey's Save stores the answers, records the checkbox as the
consent flag and moves on to Instructions only when the box was checked;
builder widgets exist only after consent (`page_builder` returns early);
New Attempt exists only on the End Experiment page. -/
def applyEvent (s : GameState) : Event → GameState
  | .nav p now =>
    renderEffect now (if requiresConsent p && !s.consented then s else { s with page := p })
  | .surveySave answers consent now =>
    renderEffect now
      (if s.page = .survey then
        (let s1 := { s with survey := answers, consented := consent }
         if consent then { s1 with page := .instructions } else s1)
      else s)
  | .addEntry e now =>
    renderEffect now
      (if s.page = .builder ∧ s.consented then
        { s with pending_entries := s.pending_entries ++ [e] }
      else s)
  | .clearPending now =>
    renderEffect now
      (if s.page = .builder ∧ s.consented then { s with pending_entries := [] } else s)
  | .runClick runAt noise now =>
    renderEffect now
      (if s.page = .builder ∧ s.consented then runExperiments s runAt noise else s)
  | .newAttempt newId now =>
    renderEffect now (if s.page = .endExp then reset_for_new_attempt newId s else s)
  | .rerunTick now => renderEffect now s

/-- Apply a sequence of interactions, in order. -/
def applyEvents (s : GameState) : List Event → GameState
  | [] => s
  | e :: rest => applyEvents (applyEvent s e) rest

/-- A concrete session in the Stopped state with the `ended` flag set, as
reached after consenting, playing and visiting End Experiment; used as a
concrete instance below. -/
def stoppedEndedState : GameState :=
  { initState "x" with
    page := Page.endExp
    consented := true
    timer_started_at := some 1
    timer_stopped_at := some 2
    timer_running := false
    ended := true }

/-- Modelled from the spec: the spectrum synthesizer of section 4.3 is not
present in src/Degradation_Game.py (only its wavelength grid `WAVELENGTHS`
is). Intensity at one wavelength: a Gaussian main peak whose center shifts
linearly with the target-minus-actual difference (clamped to plus or minus
25 nm around 550 nm), height `1 / (1 + 0.4*|diff|)`, width growing with
`|diff|` (clamped), a shoulder at +110 nm with 30% of the main height, a
small sinusoidal baseline, and a per-sample noise draw `ε`.  The center
slope, width base/slope/cap and baseline amplitude are not fixed by the
spec; representative constants are used. -/
noncomputable def spectrumIntensity (hours : ℚ) (wl : ℝ) (ε : ℝ) : ℝ :=
  let diff : ℝ := ((TARGET_HOURS : ℚ) : ℝ) - ((hours : ℚ) : ℝ)
  let center : ℝ := 550 + max (-25) (min 25 (10 * diff))
  let height : ℝ := 1 / (1 + 0.4 * |diff|)
  let width : ℝ := min 60 (20 + 5 * |diff|)
  height * Real.exp (-((wl - center) ^ 2) / (2 * width ^ 2))
    + 0.3 * height * Real.exp (-((wl - center - 110) ^ 2) / (2 * width ^ 2))
    + 0.01 * Real.sin (wl / 50) + ε

/-- Modelled from the spec: the synthesizer maps the fixed wavelength grid to
intensity samples; `noise wl` is the independent per-sample noise draw. -/
noncomputable def synthesize_spectrum (hours : ℚ) (noise : ℕ → ℝ) : List ℝ :=
  WAVELENGTHS.map (fun wl => spectrumIntensity hours ((wl : ℕ) : ℝ) (noise wl))

lemma base_degradation_time_eq (solvent : Solvent) (acid : Acid) (mult : AcidConc)
    (noise : ℚ) :
    base_degradation_time solvent acid mult noise
      = round2 (max (4/10) (preNoise solvent acid mult + noise)) := rfl

lemma le_round2_of_le (x : ℚ) (hx : (4/10 : ℚ) ≤ x) : (4/10 : ℚ) ≤ round2 x := by
  have h1 : (40 : ℤ) ≤ round (x * 100) := by
    rw [round_eq]
    refine Int.le_floor.mpr ?_
    push_cast
    linarith
  have h2 : (40 : ℚ) ≤ ((round (x * 100) : ℤ) : ℚ) := by exact_mod_cast h1
  rw [round2]
  linarith

lemma round3_nonneg_of_nonneg (x : ℚ) (hx : 0 ≤ x) : 0 ≤ round3 x := by
  have h1 : (0 : ℤ) ≤ round (x * 1000) := by
    rw [round_eq]
    refine Int.le_floor.mpr ?_
    push_cast
    linarith
  have h2 : (0 : ℚ) ≤ ((round (x * 1000) : ℤ) : ℚ) := by exact_mod_cast h1
  rw [round3]
  linarith

/-- C1: for every valid (solvent, acid, multiplier) triple and every noise
draw, `base_degradation_time` equals the deterministic pre-noise table value
plus noise, floored at 0.4 and rounded to 2 decimals, and the returned value
is at least 0.4. -/
theorem c1_base_degradation_time_range (solvent : Solvent) (acid : Acid)
    (mult : AcidConc) (noise : ℚ) :
    base_degradation_time solvent acid mult noise
      = round2 (max (4/10) (preNoise solvent acid mult + noise)) ∧
    (4/10 : ℚ) ≤ base_degradation_time solvent acid mult noise := by
  refine ⟨base_degradation_time_eq solvent acid mult noise, ?_⟩
  rw [base_degradation_time_eq]
  exact le_round2_of_le _ (le_max_left _ _)

/-- C2 counterexample: the claimed pre-noise value 2.9 for
(2MeTHF, HCl, 300x) is wrong; 6.0 - 1.2 - 0.8 - 0.9 = 3.1, not 2.9. -/
theorem c2_counterexample :
    ¬ preNoise Solvent.twoMeTHF Acid.hcl AcidConc.c300 = 29/10 := by
  norm_num [preNoise, solventAdj, acidAdj, multAdj, multVal]

/-- C2 (amended): for (2MeTHF, HCl, 300x) the pre-noise degradation time is
6.0 - 1.2 - 0.8 - 0.9 = 3.1 hours, `base_degradation_time` returns
`round2 (max 0.4 (3.1 + noise))` for that noise draw, and the additive
multiplier table takes its unique most-negative value at the 300x category,
a middle category rather than an extreme one. -/
theorem c2_example_triple :
    preNoise Solvent.twoMeTHF Acid.hcl AcidConc.c300 = 31/10 ∧
    (∀ noise : ℚ, base_degradation_time Solvent.twoMeTHF Acid.hcl AcidConc.c300 noise
      = round2 (max (4/10) (31/10 + noise))) ∧
    (∀ m : AcidConc, m = AcidConc.c300 ∨ multAdj AcidConc.c300 < multAdj m) := by
  have h31 : preNoise Solvent.twoMeTHF Acid.hcl AcidConc.c300 = 31/10 := by
    norm_num [preNoise, solventAdj, acidAdj, multAdj, multVal]
  refine ⟨h31, fun noise => ?_, fun m => ?_⟩
  · rw [base_degradation_time_eq, h31]
  · cases m
    · right; norm_num [multAdj, multVal]
    · right; norm_num [multAdj, multVal]
    · left; rfl
    · right; norm_num [multAdj, multVal]
    · right; norm_num [multAdj, multVal]

/-- C7: the spectrum synthesizer (modelled from the spec, since only the
wavelength grid is in the source) returns one intensity sample per grid
point for every input, and the grid `np.arange(300, 801, 2)` has exactly
251 points. -/
theorem c7_spectrum_length (hours : ℚ) (noise : ℕ → ℝ) :
    (synthesize_spectrum hours noise).length = 251 ∧ WAVELENGTHS.length = 251 := by
  constructor
  · simp [synthesize_spectrum, WAVELENGTHS, arange]
  · simp [WAVELENGTHS, arange]

/-- C8: `reset_for_new_attempt` installs the supplied fresh session id,
clears pending entries and results, resets the three timer fields and the
first-opened/ended flags, returns to the Welcome page, and leaves the
consent flag and survey answers unchanged. -/
theorem c8_reset_frame (s : GameState) (newId : String) :
    (reset_for_new_attempt newId s).session_id = newId ∧
    (reset_for_new_attempt newId s).pending_entries = [] ∧
    (reset_for_new_attempt newId s).results = [] ∧
    (reset_for_new_attempt newId s).timer_started_at = none ∧
    (reset_for_new_attempt newId s).timer_stopped_at = none ∧
    (reset_for_new_attempt newId s).timer_running = false ∧
    (reset_for_new_attempt newId s).first_opened_builder_at = none ∧
    (reset_for_new_attempt newId s).ended = false ∧
    (reset_for_new_attempt newId s).page = Page.welcome ∧
    (reset_for_new_attempt newId s).consented = s.consented ∧
    (reset_for_new_attempt newId s).survey = s.survey :=
  ⟨rfl, rfl, rfl, rfl, rfl, rfl, rfl, rfl, rfl, rfl, rfl⟩

lemma mkRows_length (sid runAt : String) (noise : ℕ → ℚ) :
    ∀ (l : List Entry) (k : ℕ), (mkRows sid runAt noise l k).length = l.length := by
  intro l
  induction l with
  | nil => intro k; rfl
  | cons e rest ih => intro k; simp [mkRows, ih]

lemma mkRows_map_entry_id (sid runAt : String) (noise : ℕ → ℚ) :
    ∀ (l : List Entry) (k : ℕ),
      (mkRows sid runAt noise l k).map Result.entry_id = l.map Entry.entry_id := by
  intro l
  induction l with
  | nil => intro k; rfl
  | cons e rest ih => intro k; simp [mkRows, mkRow, ih]

lemma mem_mkRows (sid runAt : String) (noise : ℕ → ℚ) :
    ∀ (l : List Entry) (k : ℕ) (r : Result), r ∈ mkRows sid runAt noise l k →
      ∃ e n, r = mkRow sid runAt e n := by
  intro l
  induction l with
  | nil => intro k r hr; cases hr
  | cons e rest ih =>
    intro k r hr
    rcases List.mem_cons.mp hr with h | h
    · exact ⟨e, noise k, h⟩
    · exact ih (k + 1) r h

/-- C3: `closeness_score h = round3 (abs (h - 3))` for every rational h, and
every result row appended by a run stores closeness equal to
`round3 (abs (degradation_hours - 3))`, which is never negative. -/
theorem c3_closeness (s : GameState) (runAt : String) (noise : ℕ → ℚ)
    (r : Result) (hr : r ∈ (runExperiments s runAt noise).results) :
    (∀ h : ℚ, closeness_score h = round3 |h - 3|) ∧
    (r ∈ s.results ∨
      (r.closeness = round3 |r.degradation_hours - 3| ∧ 0 ≤ r.closeness)) := by
  refine ⟨fun h => rfl, ?_⟩
  rw [runExperiments] at hr
  split at hr
  · rcases List.mem_append.mp hr with h | h
    · exact Or.inl h
    · rcases mem_mkRows _ _ _ _ _ _ h with ⟨e, n, rfl⟩
      refine Or.inr ⟨rfl, ?_⟩
      exact round3_nonneg_of_nonneg _ (abs_nonneg _)
  · exact Or.inl hr

/-- C3 witness: a concrete run of one entry produces a result whose stored
closeness satisfies the relation (it is not an old result of the session). -/
theorem c3_closeness_witness :
    (∀ h : ℚ, closeness_score h = round3 |h - 3|) ∧
    ((mkRow "sid" "t" ⟨"e", .twoMeTHF, 1/100, .hcl, .c300, 3, "a"⟩ 0)
        ∈ (initState "sid").results ∨
      ((mkRow "sid" "t" ⟨"e", .twoMeTHF, 1/100, .hcl, .c300, 3, "a"⟩ 0).closeness
          = round3 |(mkRow "sid" "t" ⟨"e", .twoMeTHF, 1/100, .hcl, .c300, 3, "a"⟩ 0).degradation_hours - 3| ∧
        0 ≤ (mkRow "sid" "t" ⟨"e", .twoMeTHF, 1/100, .hcl, .c300, 3, "a"⟩ 0).closeness)) :=
  c3_closeness
    { initState "sid" with pending_entries := [⟨"e", .twoMeTHF, 1/100, .hcl, .c300, 3, "a"⟩] }
    "t" (fun _ => 0)
    (mkRow "sid" "t" ⟨"e", .twoMeTHF, 1/100, .hcl, .c300, 3, "a"⟩ 0)
    (by simp [runExperiments, MAX_ENTRIES_PER_RUN, mkRows, initState])

/-- C4: a run with N pending entries, 1 <= N <= 5, appends exactly the N
rows built from the pending entries in insertion order (so the new tail of
the result list carries the pending entry ids in order) and empties the
pending list; a run with 0 or more than 5 pending entries changes nothing. -/
theorem c4_run_batch (s : GameState) (runAt : String) (noise : ℕ → ℚ) :
    (1 ≤ s.pending_entries.length → s.pending_entries.length ≤ 5 →
      (runExperiments s runAt noise).results
        = s.results ++ mkRows s.session_id runAt noise s.pending_entries 0 ∧
      (runExperiments s runAt noise).results.length
        = s.results.length + s.pending_entries.length ∧
      ((runExperiments s runAt noise).results.drop s.results.length).map Result.entry_id
        = s.pending_entries.map Entry.entry_id ∧
      (runExperiments s runAt noise).pending_entries = []) ∧
    ((s.pending_entries.length = 0 ∨ 5 < s.pending_entries.length) →
      runExperiments s runAt noise = s) := by
  constructor
  · intro h1 h5
    have hc : 0 < s.pending_entries.length ∧
        s.pending_entries.length ≤ MAX_ENTRIES_PER_RUN := ⟨h1, h5⟩
    rw [runExperiments, if_pos hc]
    refine ⟨rfl, ?_, ?_, rfl⟩
    · simp [mkRows_length]
    · simp only [List.drop_left]
      exact mkRows_map_entry_id _ _ _ _ _
  · intro h
    have hc : ¬ (0 < s.pending_entries.length ∧
        s.pending_entries.length ≤ MAX_ENTRIES_PER_RUN) := by
      rcases h with h | h
      · intro hc; omega
      · intro hc; have := hc.2; rw [MAX_ENTRIES_PER_RUN] at this; omega
    rw [runExperiments, if_neg hc]

/-- C4 witness: a concrete run of one pending entry appends exactly that row
and empties the pending list, and a run with no pending entries is the
identity on the session state. -/
theorem c4_run_batch_witness :
    ((runExperiments
        { initState "sid" with pending_entries := [⟨"e", .twoMeTHF, 1/100, .hcl, .c300, 3, "a"⟩] }
        "t" (fun _ => 0)).results
      = (initState "sid").results
        ++ mkRows "sid" "t" (fun _ => 0) [⟨"e", .twoMeTHF, 1/100, .hcl, .c300, 3, "a"⟩] 0 ∧
      (runExperiments
        { initState "sid" with pending_entries := [⟨"e", .twoMeTHF, 1/100, .hcl, .c300, 3, "a"⟩] }
        "t" (fun _ => 0)).results.length = (initState "sid").results.length + 1 ∧
      ((runExperiments
        { initState "sid" with pending_entries := [⟨"e", .twoMeTHF, 1/100, .hcl, .c300, 3, "a"⟩] }
        "t" (fun _ => 0)).results.drop (initState "sid").results.length).map Result.entry_id
        = List.map Entry.entry_id [⟨"e", .twoMeTHF, 1/100, .hcl, .c300, 3, "a"⟩] ∧
      (runExperiments
        { initState "sid" with pending_entries := [⟨"e", .twoMeTHF, 1/100, .hcl, .c300, 3, "a"⟩] }
        "t" (fun _ => 0)).pending_entries = []) ∧
    runExperiments (initState "sid") "t" (fun _ => 0) = initState "sid" :=
  ⟨(c4_run_batch
      { initState "sid" with pending_entries := [⟨"e", .twoMeTHF, 1/100, .hcl, .c300, 3, "a"⟩] }
      "t" (fun _ => 0)).1 (by decide) (by decide),
   (c4_run_batch (initState "sid") "t" (fun _ => 0)).2 (Or.inl rfl)⟩

lemma timer_step_inv (s : GameState) (op : TOp)
    (hinv : TimerInv s) (hsafe : tstartSafe s op = true) :
    TimerInv (applyTOp s op) := by
  cases op with
  | tstart now =>
    by_cases hr : s.timer_running
    · simpa [applyTOp, start_timer_if_needed, hr] using hinv
    · have hnone : s.timer_stopped_at = none := by
        simpa [tstartSafe, hr] using hsafe
      constructor
      · intro _
        simp [applyTOp, start_timer_if_needed, hr, hnone]
      · intro h
        simp [applyTOp, start_timer_if_needed, hr, hnone] at h
  | tstop now =>
    by_cases hr : s.timer_running
    · constructor
      · intro h
        simp [applyTOp, stop_timer, hr] at h
      · intro _
        simp [applyTOp, stop_timer, hr]
    · simpa [applyTOp, stop_timer, hr] using hinv
  | treset newId =>
    constructor
    · intro h
      simp [applyTOp, reset_for_new_attempt] at h
    · intro _
      simp [applyTOp, reset_for_new_attempt]

/-- C5 counterexample: starting, stopping, then starting the timer again is a
sequence of the three timer operations whose final state violates the claimed
TimerState invariant: it is running while a stop time is still recorded,
because `start_timer_if_needed` never clears `timer_stopped_at`. -/
theorem c5_counterexample :
    ¬ TimerInv (runTOps (initState "s") [.tstart 1, .tstop 2, .tstart 3]) := by
  intro h
  exact Option.noConfusion (h.1 rfl)

/-- C5 (amended): the TimerState invariant (running implies no recorded stop
time; a recorded stop time implies not running) is preserved by every
sequence of the three timer operations in which `start_timer_if_needed` is
never invoked from the Stopped state, and elapsed time is monotonically
non-decreasing in the wall clock while the timer is running.  Restarting
from the Stopped state breaks the invariant, as the counterexample shows. -/
theorem c5_timer_invariant :
    (∀ (s : GameState) (ops : List TOp), TimerInv s → safeTOps s ops = true →
      TimerInv (runTOps s ops)) ∧
    (∀ (s : GameState) (t1 t2 : ℚ), s.timer_running = true → t1 ≤ t2 →
      elapsed_seconds s t1 ≤ elapsed_seconds s t2) := by
  constructor
  · intro s ops
    induction ops generalizing s with
    | nil => intro hinv _; exact hinv
    | cons op rest ih =>
      intro hinv hsafe
      rw [safeTOps, Bool.and_eq_true] at hsafe
      exact ih (applyTOp s op) (timer_step_inv s op hinv hsafe.1) hsafe.2
  · intro s t1 t2 hr hle
    cases hst : s.timer_started_at with
    | none => simp [elapsed_seconds, hst]
    | some start =>
      simp only [elapsed_seconds, hst, hr, if_true]
      exact max_le_max le_rfl (by linarith)

/-- C5 witness: the invariant holds after a concrete safe start/stop
sequence from a fresh session, and elapsed time at a concrete running state
is non-decreasing between two concrete instants. -/
theorem c5_timer_invariant_witness :
    TimerInv (runTOps (initState "a") [.tstart 1, .tstop 2]) ∧
    elapsed_seconds (start_timer_if_needed 1 (initState "b")) 5
      ≤ elapsed_seconds (start_timer_if_needed 1 (initState "b")) 6 :=
  ⟨c5_timer_invariant.1 (initState "a") [.tstart 1, .tstop 2]
      (by constructor <;> simp [initState]) rfl,
   c5_timer_invariant.2 (start_timer_if_needed 1 (initState "b")) 5 6 rfl (by norm_num)⟩

/-- C6: `elapsed_seconds` is 0 before the timer is ever started, equals
`max 0 (now - started_at)` while running (non-decreasing in `now`), equals
the frozen `max 0 (stopped_at - started_at)` once stopped, a second
`stop_timer` leaves the state (hence the frozen value) unchanged, and the
returned value is never negative. -/
theorem c6_elapsed_seconds (s : GameState) (now now2 t1 t2 : ℚ) :
    (s.timer_started_at = none → elapsed_seconds s now = 0) ∧
    (∀ st : ℚ, s.timer_started_at = some st → s.timer_running = true →
      elapsed_seconds s now = max 0 (now - st)) ∧
    (s.timer_running = true → t1 ≤ t2 →
      elapsed_seconds s t1 ≤ elapsed_seconds s t2) ∧
    (∀ st sp : ℚ, s.timer_started_at = some st → s.timer_running = false →
      s.timer_stopped_at = some sp → elapsed_seconds s now = max 0 (sp - st)) ∧
    stop_timer now2 (stop_timer now s) = stop_timer now s ∧
    0 ≤ elapsed_seconds s now := by
  refine ⟨?_, ?_, ?_, ?_, ?_, ?_⟩
  · intro h
    simp [elapsed_seconds, h]
  · intro st h hr
    simp [elapsed_seconds, h, hr]
  · intro hr hle
    cases hst : s.timer_started_at with
    | none => simp [elapsed_seconds, hst]
    | some start =>
      simp only [elapsed_seconds, hst, hr, if_true]
      exact max_le_max le_rfl (by linarith)
  · intro st sp h hr hsp
    simp [elapsed_seconds, h, hr, hsp]
  · by_cases hr : s.timer_running
    · simp [stop_timer, hr]
    · simp [stop_timer, hr]
  · cases hst : s.timer_started_at with
    | none => simp [elapsed_seconds, hst]
    | some start =>
      by_cases hr : s.timer_running
      · simp only [elapsed_seconds, hst, hr, if_true]
        exact le_max_left 0 _
      · cases hsp : s.timer_stopped_at with
        | none => simp [elapsed_seconds, hst, hr, hsp]
        | some stop =>
          simp only [elapsed_seconds, hst, hr, if_false, hsp, Bool.false_eq_true]
          exact le_max_left 0 _

/-- C6 witness: the elapsed-time equations at a concrete idle, running and
stopped state, stop idempotence at a concrete stopped state, and
non-negativity at the idle state. -/
theorem c6_elapsed_seconds_witness :
    elapsed_seconds (initState "i") 5 = 0 ∧
    elapsed_seconds (start_timer_if_needed 1 (initState "r")) 5 = max 0 (5 - 1) ∧
    elapsed_seconds (start_timer_if_needed 1 (initState "r")) 5
      ≤ elapsed_seconds (start_timer_if_needed 1 (initState "r")) 6 ∧
    elapsed_seconds (stop_timer 2 (start_timer_if_needed 1 (initState "r"))) 9
      = max 0 (2 - 1) ∧
    stop_timer 7 (stop_timer 2 (start_timer_if_needed 1 (initState "r")))
      = stop_timer 2 (start_timer_if_needed 1 (initState "r")) ∧
    0 ≤ elapsed_seconds (initState "i") 5 :=
  ⟨(c6_elapsed_seconds (initState "i") 5 0 0 0).1 rfl,
   (c6_elapsed_seconds (start_timer_if_needed 1 (initState "r")) 5 0 0 0).2.1 1 rfl rfl,
   (c6_elapsed_seconds (start_timer_if_needed 1 (initState "r")) 0 0 5 6).2.2.1 rfl
     (by norm_num),
   (c6_elapsed_seconds (stop_timer 2 (start_timer_if_needed 1 (initState "r"))) 9 0 0 0).2.2.2.1
     1 2 rfl rfl rfl,
   (c6_elapsed_seconds (start_timer_if_needed 1 (initState "r")) 2 7 0 0).2.2.2.2.1,
   (c6_elapsed_seconds (initState "i") 5 0 0 0).2.2.2.2.2⟩

lemma renderEffect_timer_start (now : ℚ) (s : GameState)
    (h0 : s.timer_running = false)
    (h1 : (renderEffect now s).timer_running = true) :
    s.consented = true ∧ s.page = Page.builder := by
  cases hp : s.page with
  | builder =>
    by_cases hc : s.consented = true
    · exact ⟨hc, rfl⟩
    · simp [renderEffect, hp, hc, h0] at h1
  | endExp =>
    by_cases he : s.ended = true
    · simp [renderEffect, hp, he, h0] at h1
    · simp [renderEffect, hp, he, stop_timer, h0] at h1
  | welcome => simp [renderEffect, hp, h0] at h1
  | survey => simp [renderEffect, hp, h0] at h1
  | instructions => simp [renderEffect, hp, h0] at h1
  | resultsPage => simp [renderEffect, hp, h0] at h1
  | progress => simp [renderEffect, hp, h0] at h1

/-- C9 counterexample: the invariant "timer running implies consented" fails
on a reachable interaction sequence: consent on the Survey page, open the
Experiment Builder (which starts the timer), return to the Survey page and
save it with the consent box unchecked; the save overwrites the consent flag
with false while the timer keeps running. -/
theorem c9_counterexample :
    (applyEvents (initState "sid")
      [.nav .survey 0, .surveySave [] true 1, .nav .builder 2,
       .nav .survey 3, .surveySave [] false 4]).timer_running = true ∧
    (applyEvents (initState "sid")
      [.nav .survey 0, .surveySave [] true 1, .nav .builder 2,
       .nav .survey 3, .surveySave [] false 4]).consented = false :=
  ⟨rfl, rfl⟩

/-- C9 (amended): the timer never starts while the consent flag is false:
any single interaction that takes the timer from not running to running is
performed in a state whose consent flag is already true (the start call
lives behind the consent guard of the Experiment Builder page).  The
stronger reachable-state invariant "running implies consented" is false,
because a later Survey save can revoke consent while the timer runs, as
the counterexample shows. -/
theorem c9_timer_starts_only_with_consent (s : GameState) (e : Event)
    (h0 : s.timer_running = false)
    (h1 : (applyEvent s e).timer_running = true) :
    s.consented = true := by
  cases e with
  | nav p now =>
    by_cases hg : (requiresConsent p && !s.consented) = true
    · exact (renderEffect_timer_start now s h0 (by simpa [applyEvent, hg] using h1)).1
    · exact (renderEffect_timer_start now { s with page := p } h0
        (by simpa [applyEvent, hg] using h1)).1
  | surveySave answers consent now =>
    by_cases hs : s.page = Page.survey
    · by_cases hc : consent = true
      · subst hc
        have h := renderEffect_timer_start now
          { s with survey := answers, consented := true, page := Page.instructions } h0
          (by simpa [applyEvent, hs] using h1)
        exact absurd h.2 (by simp)
      · have hcf : consent = false := by simpa using hc
        subst hcf
        have h := renderEffect_timer_start now
          { s with survey := answers, consented := false } h0
          (by simpa [applyEvent, hs] using h1)
        exact absurd h.1 (by simp)
    · exact (renderEffect_timer_start now s h0 (by simpa [applyEvent, hs] using h1)).1
  | addEntry e now =>
    by_cases hb : s.page = Page.builder ∧ s.consented = true
    · exact hb.2
    · exact (renderEffect_timer_start now s h0 (by simpa [applyEvent, hb] using h1)).1
  | clearPending now =>
    by_cases hb : s.page = Page.builder ∧ s.consented = true
    · exact hb.2
    · exact (renderEffect_timer_start now s h0 (by simpa [applyEvent, hb] using h1)).1
  | runClick runAt noise now =>
    by_cases hb : s.page = Page.builder ∧ s.consented = true
    · exact hb.2
    · exact (renderEffect_timer_start now s h0 (by simpa [applyEvent, hb] using h1)).1
  | newAttempt newId now =>
    by_cases he : s.page = Page.endExp
    · simp [applyEvent, he, reset_for_new_attempt, renderEffect] at h1
    · exact (renderEffect_timer_start now s h0 (by simpa [applyEvent, he] using h1)).1
  | rerunTick now =>
    exact (renderEffect_timer_start now s h0 (by simpa [applyEvent] using h1)).1

/-- C9 witness: a concrete consented builder-page state in which a rerun
tick starts the timer; the theorem recovers that its consent flag is true. -/
theorem c9_timer_starts_only_with_consent_witness :
    ({ initState "w" with page := Page.builder, consented := true } : GameState).consented
      = true :=
  c9_timer_starts_only_with_consent
    { initState "w" with page := Page.builder, consented := true }
    (.rerunTick 1) rfl rfl

/-- C10: calling `start_timer_if_needed` in any non-running state (such as
the Stopped state reached after End Experiment) overwrites `started_at` with
the current time and sets running, while `stopped_at` keeps its stale value
and the `ended` flag is untouched, so `elapsed_seconds` restarts from zero
and the previously accumulated elapsed time is discarded; re-entering the
Experiment Builder does exactly this whenever consent is set, regardless of
the `ended` flag. -/
theorem c10_restart_overwrites (s : GameState) (now now2 : ℚ)
    (h0 : s.timer_running = false) :
    (start_timer_if_needed now s).timer_started_at = some now ∧
    (start_timer_if_needed now s).timer_running = true ∧
    (start_timer_if_needed now s).timer_stopped_at = s.timer_stopped_at ∧
    (start_timer_if_needed now s).ended = s.ended ∧
    elapsed_seconds (start_timer_if_needed now s) now = 0 ∧
    elapsed_seconds (start_timer_if_needed now s) now2 = max 0 (now2 - now) ∧
    (s.consented = true →
      (applyEvent s (.nav .builder now)).timer_running = true ∧
      (applyEvent s (.nav .builder now)).timer_started_at = some now) := by
  have hs : start_timer_if_needed now s
      = { s with timer_started_at := some now, timer_running := true } := by
    rw [start_timer_if_needed, if_neg]
    simp [h0]
  refine ⟨by rw [hs], by rw [hs], by rw [hs], by rw [hs], ?_, ?_, ?_⟩
  · rw [hs]
    simp [elapsed_seconds]
  · rw [hs]
    simp [elapsed_seconds]
  · intro hc
    have hb : (applyEvent s (Event.nav Page.builder now))
        = start_timer_if_needed now { s with page := Page.builder } := by
      simp [applyEvent, requiresConsent, hc, renderEffect]
    rw [hb, start_timer_if_needed, if_neg]
    · exact ⟨rfl, rfl⟩
    · simp [h0]

/-- C10 witness: restarting from a concrete stopped, ended session at time 5
overwrites the start time, keeps the stale stop time and ended flag, and
restarts elapsed time from zero. -/
theorem c10_restart_overwrites_witness :
    (start_timer_if_needed 5 stoppedEndedState).timer_started_at = some 5 ∧
    (start_timer_if_needed 5 stoppedEndedState).timer_running = true ∧
    (start_timer_if_needed 5 stoppedEndedState).timer_stopped_at = some 2 ∧
    (start_timer_if_needed 5 stoppedEndedState).ended = true ∧
    elapsed_seconds (start_timer_if_needed 5 stoppedEndedState) 5 = 0 ∧
    elapsed_seconds (start_timer_if_needed 5 stoppedEndedState) 7 = max 0 (7 - 5) ∧
    ((applyEvent stoppedEndedState (.nav .builder 5)).timer_running = true ∧
      (applyEvent stoppedEndedState (.nav .builder 5)).timer_started_at = some 5) := by
  have h := c10_restart_overwrites stoppedEndedState 5 7 rfl
  exact ⟨h.1, h.2.1, h.2.2.1, h.2.2.2.1, h.2.2.2.2.1, h.2.2.2.2.2.1,
    h.2.2.2.2.2.2 rfl⟩

end DegradationGame
